import Mathlib

/-!
Shallow embedding of the browser session manager, action dispatcher,
selector fallback strategy and tool transport of the claude-flow-bianca
repository (mcp-bianca-tools and its callers), together with theorems
settling the spec's claims about them.

External collaborators (the puppeteer browser engine, the zod validator,
the wall clock) are modelled as explicit environments supplied to the
embedded functions; the control flow of each embedded function follows
the corresponding source function line by line.
-/

namespace BiancaTools

/-! ## Selector fallback strategy

`ekyte-simple-test.ts` (run, email/password/button loops),
`ekyte-workflow.cjs` (executarFluxoEkyte, seletoresEmail/Senha/Botao
loops) and `part_000` all share the same loop shape:

```
let ok = false
for (const selector of selectors) {
  try { await type-or-click(selector); ok = true; break }
  catch { /* log and continue */ }
}
if (!ok) throw new Error('Campo de email não encontrado')
```

We abstract the per-candidate interaction as a predicate
`works : String → Bool` (the attempt succeeds within its timeout). -/

/-- The result of the fallback loop: the first candidate in list order on
which the interaction succeeds, or `none` when the list is exhausted.
Mirrors the `for … try … break` loop. -/
def tryCandidates (works : String → Bool) : List String → Option String
  | [] => none
  | s :: rest => if works s then some s else tryCandidates works rest

/-- The candidates actually attempted by the loop, in the order attempted:
every failing candidate before the first success, then the succeeding one;
candidates after the first success are never attempted (`break`). -/
def attemptedCandidates (works : String → Bool) : List String → List String
  | [] => []
  | s :: rest => if works s then [s] else s :: attemptedCandidates works rest

/-- Email-field candidate list of `EkyteSimpleTest.run`
(`ekyte-simple-test.ts`, `emailSelectors`). -/
def emailSelectors : List String :=
  ["input[type=\"email\"]",
   "input[name=\"email\"]",
   "input[id=\"email\"]",
   "input[placeholder*=\"email\"]",
   "input[placeholder*=\"Email\"]",
   "input[class*=\"email\"]"]

/-- Email-field candidate list of `executarFluxoEkyte`
(`ekyte-workflow.cjs`, `seletoresEmail`). -/
def seletoresEmail : List String :=
  ["input[type=\"email\"]",
   "input[name=\"email\"]",
   "input[id=\"email\"]",
   "#email",
   "[data-testid=\"email\"]"]

/-- Classified error kinds of the tool layer (`MCPError` codes plus the
zod validation failure and the unknown-tool rejection). -/
inductive ErrorKind where
  | validationError
  | pageLoadFailed
  | elementNotFound
  | internalError
  | unknownTool
deriving DecidableEq, Repr

/-- Outcome of one tool action: a success payload or a classified error
with a human-readable message. -/
inductive ToolOutcome (α : Type) where
  | ok (value : α)
  | err (kind : ErrorKind) (msg : String)
deriving DecidableEq, Repr

/-- The email step of `EkyteSimpleTest.run` / `EkytePersistentTest`:
run the fallback loop over the candidate list; when no candidate worked,
throw `new Error('Campo de email não encontrado')` — a fixed message. -/
def emailStepOutcome (works : String → Bool) (selectors : List String) :
    ToolOutcome String :=
  match tryCandidates works selectors with
  | some s => .ok s
  | none => .err .elementNotFound "Campo de email não encontrado"

/-- Whether `pre` is a prefix of `cs`, over character lists. -/
def listStartsWith : List Char → List Char → Bool
  | [], _ => true
  | _ :: _, [] => false
  | p :: ps, c :: cs => p == c && listStartsWith ps cs

/-- Whether `pat` occurs as a substring somewhere in `cs`. -/
def listOccurs (pat : List Char) : List Char → Bool
  | [] => listStartsWith pat []
  | c :: cs => listStartsWith pat (c :: cs) || listOccurs pat cs

/-- Whether `pat` occurs as a substring of `s` (JS
`String.prototype.includes`). -/
def containsSubstr (s pat : String) : Bool :=
  listOccurs pat.data s.data

/-! ## Browser session manager

`src/mcp-bianca-tools/src/tools/puppeteer/index.ts`: module-level
mutable state `browser`, `page`, `lastActivity`, the `ensureBrowser`
function and the `startBrowserCleanup` reaper. A browser handle carries
its `isConnected()` flag, a page handle its `isClosed()` flag. -/

structure BrowserHandle where
  id : Nat
  connected : Bool
deriving DecidableEq, Repr

structure PageHandle where
  id : Nat
  closed : Bool
deriving DecidableEq, Repr

/-- The module-level mutable state of `puppeteer/index.ts`:
`let browser`, `let page`, `let lastActivity`. -/
structure BrowserState where
  browser : Option BrowserHandle
  page : Option PageHandle
  lastActivity : Nat
deriving DecidableEq, Repr

/-- Constant `BROWSER_TIMEOUT = 30 * 60 * 1000` (30-minute idle threshold). -/
def BROWSER_TIMEOUT : Nat := 30 * 60 * 1000

/-- Constant `PAGE_TIMEOUT = 30000`. -/
def PAGE_TIMEOUT : Nat := 30000

/-- The `setInterval` period of `startBrowserCleanup`: `60000` ms,
i.e. the reaper check runs once per minute. -/
def CLEANUP_INTERVAL : Nat := 60000

/-- Test `browser && browser.isConnected()` — the condition guarding the launch
branch of `ensureBrowser`. -/
def browserIsLive (st : BrowserState) : Bool :=
  match st.browser with
  | none => false
  | some b => b.connected

/-- Test `page && !page.isClosed()` — the condition guarding the page-creation
branch of `ensureBrowser`. -/
def pageIsOpen (st : BrowserState) : Bool :=
  match st.page with
  | none => false
  | some p => !p.closed

/-- Observable effects of the session manager against the puppeteer
engine and filesystem. -/
inductive BrowserEvent where
  | ensureInvoked
  | launch
  | newPage
  | closeBrowser
  | screenshot (path : String) (fullPage : Bool)
deriving DecidableEq, Repr

/-- Environment for one `ensureBrowser` call: the wall clock
(`Date.now()`), the handle `puppeteer.launch` would return, the list
`browser.pages()` reports, and the handle `browser.newPage()` would
return. A freshly launched browser is connected and a fresh page open. -/
structure EnsureEnv where
  now : Nat
  freshBrowserId : Nat
  existingPages : List PageHandle
  freshPageId : Nat
deriving Repr

/-- Function `ensureBrowser` (`puppeteer/index.ts` lines 76–123): launch a browser
when none is connected; when the page is missing or closed, reuse
`pages[0]` if any, else open a new page; always update `lastActivity`.
Returns the new state and the engine events, `ensureInvoked` first. -/
def ensureBrowser (env : EnsureEnv) (st : BrowserState) :
    BrowserState × List BrowserEvent :=
  let (st1, ev1) :=
    if browserIsLive st then (st, ([] : List BrowserEvent))
    else ({ st with browser := some ⟨env.freshBrowserId, true⟩ }, [.launch])
  let (st2, ev2) :=
    if pageIsOpen st1 then (st1, ([] : List BrowserEvent))
    else
      match env.existingPages with
      | p :: _ => ({ st1 with page := some p }, ([] : List BrowserEvent))
      | [] => ({ st1 with page := some ⟨env.freshPageId, false⟩ }, [.newPage])
  ({ st2 with lastActivity := env.now }, .ensureInvoked :: (ev1 ++ ev2))

/-- One tick of the `startBrowserCleanup` reaper
(`puppeteer/index.ts` lines 128–137): when a browser handle is held and
`Date.now() - lastActivity > BROWSER_TIMEOUT`, close the browser and
clear both handles. -/
def cleanupTick (now : Nat) (st : BrowserState) :
    BrowserState × List BrowserEvent :=
  match st.browser with
  | some _ =>
    if now - st.lastActivity > BROWSER_TIMEOUT then
      ({ st with browser := none, page := none }, [.closeBrowser])
    else (st, [])
  | none => (st, [])

/-! ## Action dispatcher handlers -/

/-- Resolution of one `page.goto` call by the engine: the page load
completes, leaving the page at `finalUrl` (`page.url()` after any
redirect), or navigation throws with message `msg` (timeout, DNS
failure, …). -/
inductive GotoResult where
  | success (finalUrl : String)
  | failure (msg : String)
deriving DecidableEq, Repr

/-- Environment for one `handleNavigate` call: the verdict of zod's
`z.string().url()` check (the zod library is an external dependency), the
`ensureBrowser` environment and the engine's `goto` resolution. -/
structure NavigateEnv where
  urlValid : String → Bool
  ensure : EnsureEnv
  goto : GotoResult

/-- Success payload of `handleNavigate`: `successResponse({ url: validated.url }, …)`. -/
structure NavigateResult where
  url : String
deriving DecidableEq, Repr

/-- Handler `handleNavigate` (`puppeteer/index.ts` lines 140–173):
`NavigateSchema.parse` first (throws a validation error on an invalid
URL, before `ensureBrowser` is invoked), then `ensureBrowser`, then
`page.goto`; on completion returns `{ url: validated.url }`, on a thrown
navigation wraps the message in an `MCPError(PAGE_LOAD_FAILED, …)`. -/
def handleNavigate (env : NavigateEnv) (st : BrowserState) (url : String) :
    BrowserState × List BrowserEvent × ToolOutcome NavigateResult :=
  if env.urlValid url = false then
    (st, [], .err .validationError "URL inválida fornecida")
  else
    let (st1, evs) := ensureBrowser env.ensure st
    match st1.page with
    | none => (st1, evs, .err .pageLoadFailed "Página não inicializada")
    | some _ =>
      match env.goto with
      | .success _ => (st1, evs, .ok ⟨url⟩)
      | .failure msg =>
        (st1, evs, .err .pageLoadFailed
          ("Falha ao navegar para " ++ url ++ ": " ++ msg))

/-- Lowercasing of a string, character by character (the ASCII case
folding of JS `toLowerCase` and of a case-insensitive regex). -/
def lowerString (s : String) : String :=
  String.mk (s.data.map Char.toLower)

/-- Whether `s` ends with `suffix`, over character lists. -/
def strEndsWith (s suffix : String) : Bool :=
  listStartsWith suffix.data.reverse s.data.reverse

/-- The extension check of `handleScreenshot`:
`path.match(/\.(png|jpg|jpeg)$/i)`. -/
def hasImageExt (path : String) : Bool :=
  let l := lowerString path
  strEndsWith l ".png" || strEndsWith l ".jpg" || strEndsWith l ".jpeg"

/-- The path actually stored and returned by `handleScreenshot`:
`if (!path.match(/\.(png|jpg|jpeg)$/i)) path += '.png'`. -/
def resolveScreenshotPath (path : String) : String :=
  if hasImageExt path then path else path ++ ".png"

/-- Environment for one `handleScreenshot` call: the `ensureBrowser`
environment plus what `page.url()` and `page.title()` report. -/
structure ScreenshotEnv where
  ensure : EnsureEnv
  currentUrl : String
  title : String
deriving Repr

/-- Success payload of `handleScreenshot`:
`successResponse({ path, currentUrl, title }, …)`. -/
structure ScreenshotResult where
  path : String
  currentUrl : String
  title : String
deriving DecidableEq, Repr

/-- Handler `handleScreenshot` (`puppeteer/index.ts` lines 175–209):
`ScreenshotSchema.parse` requires a non-empty path; then `ensureBrowser`,
extension defaulting, `page.screenshot({ path, fullPage })`, and the
payload `{ path, currentUrl, title }`. -/
def handleScreenshot (env : ScreenshotEnv) (st : BrowserState)
    (path : String) (fullPage : Bool) :
    BrowserState × List BrowserEvent × ToolOutcome ScreenshotResult :=
  if path = "" then
    (st, [], .err .validationError "Caminho do arquivo é obrigatório")
  else
    let (st1, evs) := ensureBrowser env.ensure st
    match st1.page with
    | none => (st1, evs, .err .pageLoadFailed "Página não inicializada")
    | some _ =>
      let p := resolveScreenshotPath path
      (st1, evs ++ [.screenshot p fullPage], .ok ⟨p, env.currentUrl, env.title⟩)

/-! ## Tool transport

`ekyte-workflow.cjs`, `executarComando` (lines 46–102): the caller sends
a JSON-RPC frame with a fresh numeric `id` and registers a one-shot
`onData` listener; each incoming line starting with `{` is parsed and,
when `json.id === comando.id`, the pending promise is rejected with
`json.error.message` or resolved with `json.result` and the listener is
removed; any frame with a different `id` is skipped and the promise
stays pending. -/

/-- One parsed incoming frame: its `id`, `error.message` when the frame
carries an error, and its `result` payload otherwise. -/
structure Frame where
  id : Nat
  error : Option String
  result : String
deriving DecidableEq, Repr

/-- State of the pending request held by `executarComando`'s promise. -/
inductive ReqState where
  | pending
  | resolved (result : String)
  | rejected (msg : String)
deriving DecidableEq, Repr

/-- Effect of one incoming frame on the pending request keyed by
`reqId`: a matching frame settles a still-pending request (reject on
`json.error`, resolve otherwise); any other frame leaves the state
unchanged, and a settled request is never touched again (the listener
was removed). -/
def processFrame (reqId : Nat) (st : ReqState) (f : Frame) : ReqState :=
  match st with
  | .pending =>
    if f.id = reqId then
      match f.error with
      | some m => .rejected m
      | none => .resolved f.result
    else .pending
  | s => s

/-- Processing a whole sequence of incoming frames in arrival order. -/
def processFrames (reqId : Nat) (st : ReqState) (fs : List Frame) : ReqState :=
  fs.foldl (processFrame reqId) st

/-! ## Tool dispatch

`src/mcp-bianca-tools/src/tools/index.ts`, `toolHandlers`
(lines 89–118): the catalogue mapping tool names to handlers. -/

/-- The keys of `toolHandlers`, in declaration order. -/
def toolNames : List String :=
  ["puppeteer_navigate",
   "puppeteer_screenshot",
   "puppeteer_click",
   "puppeteer_type",
   "puppeteer_get_content",
   "puppeteer_new_tab",
   "open_browser",
   "puppeteer_navigate_and_screenshot",
   "ekyte_login",
   "ekyte_login_and_navigate",
   "ekyte_process_notifications",
   "ekyte_explore_section",
   "ekyte_manage_task",
   "ekyte_analyze_metrics",
   "ekyte_smart_search",
   "browser_open_url",
   "agents_list",
   "agents_get_details",
   "agents_analyze",
   "agents_search",
   "agents_manage_skills"]

/-- Modelled from the spec: the server entry point that looks an incoming
tool name up in `toolHandlers` and rejects a name outside the catalogue
with a classified error before any handler runs (the entry point file
`build/index.js` / `src/index.ts` is not under `src/`; the `toolHandlers`
catalogue itself is). `run` is the handler table: it is consulted only
for catalogued names. -/
def dispatch
    (run : String → BrowserState → BrowserState × List BrowserEvent × ToolOutcome String)
    (name : String) (st : BrowserState) :
    BrowserState × List BrowserEvent × ToolOutcome String :=
  if toolNames.contains name then run name st
  else (st, [], .err .unknownTool ("Ferramenta desconhecida: " ++ name))

/-! ## Smart search

`handleEkyteSmartSearch` (`puppeteer/index.ts` lines 814–892). After the
login steps complete, the handler tries five hard-coded search-field
selectors (`waitForSelector` with a 2-second timeout, then `type`) in
order; when none works it does not throw: it evaluates a manual scan of
`document.body.innerText` inside the page, screenshots, and returns a
success with `method: 'manual'`. -/

/-- The hard-coded `searchSelectors` list. -/
def searchSelectors : List String :=
  ["input[type=\"search\"]",
   "input[placeholder*=\"buscar\"]",
   "input[placeholder*=\"search\"]",
   ".search-input",
   "#search"]

/-- Splitting of a character list at every character satisfying `p`
(JS `split` on a single-character regex class: separators are dropped,
empty pieces are kept). -/
def splitOnPred (p : Char → Bool) : List Char → List (List Char)
  | [] => [[]]
  | c :: rest =>
    if p c then [] :: splitOnPred p rest
    else
      match splitOnPred p rest with
      | [] => [[c]]
      | g :: gs => (c :: g) :: gs

/-- Split of the body text into sentences: `allText.split(/[.!?]/)`. -/
def sentenceSplit (s : String) : List String :=
  (splitOnPred (fun c => c == '.' || c == '!' || c == '?') s.data).map String.mk

/-- Removal of leading and trailing whitespace (JS `trim`). -/
def trimString (s : String) : String :=
  String.mk
    (((s.data.dropWhile Char.isWhitespace).reverse.dropWhile
        Char.isWhitespace).reverse)

/-- The `page.evaluate` body of the manual search: lowercase the body
text and the term, split into sentences on `[.!?]`, keep the sentences
containing the term, take the first 5, trim each. -/
def manualSearchResults (bodyText term : String) : List String :=
  let allText := lowerString bodyText
  let termLower := lowerString term
  let sentences := sentenceSplit allText
  let found := sentences.filter (fun sentence => containsSubstr sentence termLower)
  (found.take 5).map (fun m => trimString m)

/-- Environment for the search stage: whether each `waitForSelector` +
`type` attempt succeeds within its 2-second timeout, and the page's
`document.body.innerText`. -/
structure SmartSearchEnv where
  selectorWorks : String → Bool
  bodyText : String

/-- Success payload of `handleEkyteSmartSearch` (`results` is empty on
the `search_field` path, which returns no `results` key). -/
structure SmartSearchResult where
  searchTerm : String
  method : String
  results : List String
  screenshotPath : String
deriving DecidableEq, Repr

/-- The search stage of `handleEkyteSmartSearch`, entered once the login
steps have completed (a login-step throw is caught by the enclosing
`catch` as a `PAGE_LOAD_FAILED` error and never reaches this stage):
first-match-wins over `searchSelectors`; on exhaustion, the manual body
scan, a screenshot, and a success with `method: 'manual'`. -/
def handleEkyteSmartSearch (env : SmartSearchEnv)
    (searchTerm screenshotPath : String) :
    ToolOutcome SmartSearchResult × List BrowserEvent :=
  match tryCandidates env.selectorWorks searchSelectors with
  | some _ =>
    (.ok ⟨searchTerm, "search_field", [], screenshotPath⟩,
     [.screenshot screenshotPath true])
  | none =>
    (.ok ⟨searchTerm, "manual", manualSearchResults env.bodyText searchTerm,
       screenshotPath⟩,
     [.screenshot screenshotPath true])

/-! ## Helper lemmas -/

/-- The fallback loop finds exactly the first candidate that works. -/
theorem tryCandidates_eq_find (works : String → Bool) (l : List String) :
    tryCandidates works l = l.find? works := by
  induction l with
  | nil => rfl
  | cons s rest ih =>
    by_cases h : works s = true
    · simp [tryCandidates, List.find?, h]
    · simp only [Bool.not_eq_true] at h
      simp [tryCandidates, List.find?, h, ih]

/-- When every candidate fails, the fallback loop exhausts the list. -/
theorem tryCandidates_eq_none (works : String → Bool) (l : List String)
    (h : ∀ s ∈ l, works s = false) : tryCandidates works l = none := by
  induction l with
  | nil => rfl
  | cons s rest ih =>
    have hs : works s = false := h s (by simp)
    simp [tryCandidates, hs]
    exact ih fun x hx => h x (by simp [hx])

/-- The attempted candidates are the failing prefix of the list followed
by the first success, when there is one. -/
theorem attemptedCandidates_eq (works : String → Bool) (l : List String) :
    attemptedCandidates works l
      = l.takeWhile (fun s => !works s) ++ (l.find? works).toList := by
  induction l with
  | nil => rfl
  | cons s rest ih =>
    by_cases h : works s = true
    · simp [attemptedCandidates, List.takeWhile, List.find?, h]
    · simp only [Bool.not_eq_true] at h
      simp [attemptedCandidates, List.takeWhile, List.find?, h, ih]

/-- A live session with an open page makes `ensureBrowser` a pure
timestamp update, emitting no engine event. -/
theorem ensureBrowser_live (env : EnsureEnv) (st : BrowserState)
    (hb : browserIsLive st = true) (hp : pageIsOpen st = true) :
    ensureBrowser env st
      = ({ st with lastActivity := env.now }, [.ensureInvoked]) := by
  simp [ensureBrowser, hb, hp]

/-- After any `ensureBrowser` call a page handle is held. -/
theorem ensureBrowser_page_isSome (env : EnsureEnv) (st : BrowserState) :
    ((ensureBrowser env st).1.page).isSome = true := by
  unfold ensureBrowser
  by_cases hb : browserIsLive st = true
  · simp only [hb, if_true]
    by_cases hp : pageIsOpen st = true
    · simp only [hp, if_true]
      cases hpg : st.page with
      | none => simp [pageIsOpen, hpg] at hp
      | some p => simp [hpg]
    · simp only [Bool.not_eq_true] at hp
      simp only [hp, Bool.false_eq_true, if_false]
      cases env.existingPages <;> simp
  · simp only [Bool.not_eq_true] at hb
    simp only [hb, Bool.false_eq_true, if_false]
    have hp : pageIsOpen { st with browser := some ⟨env.freshBrowserId, true⟩ }
        = pageIsOpen st := rfl
    by_cases hps : pageIsOpen st = true
    · simp only [hp, hps, if_true]
      cases hpg : st.page with
      | none => simp [pageIsOpen, hpg] at hps
      | some p => simp [hpg]
    · simp only [Bool.not_eq_true] at hps
      simp only [hp, hps, Bool.false_eq_true, if_false]
      cases env.existingPages <;> simp

/-- Every `ensureBrowser` call announces itself in its event trace. -/
theorem ensureBrowser_invoked (env : EnsureEnv) (st : BrowserState) :
    BrowserEvent.ensureInvoked ∈ (ensureBrowser env st).2 := by
  unfold ensureBrowser
  simp

/-- On a live session with an open page, `handleNavigate` with a valid
URL only refreshes the timestamp and never launches a browser. -/
theorem handleNavigate_live (env : NavigateEnv) (st : BrowserState)
    (url : String) (hv : env.urlValid url = true)
    (hb : browserIsLive st = true) (hp : pageIsOpen st = true) :
    (handleNavigate env st url).1 = { st with lastActivity := env.ensure.now }
    ∧ (handleNavigate env st url).2.1 = [.ensureInvoked] := by
  obtain ⟨p, hpg⟩ : ∃ p, st.page = some p := by
    cases hpg : st.page with
    | none => simp [pageIsOpen, hpg] at hp
    | some p => exact ⟨p, rfl⟩
  unfold handleNavigate
  rw [ensureBrowser_live env.ensure st hb hp]
  simp only [hv]
  cases env.goto <;> simp [hpg]

/-! ## Claim theorems -/

/-- C1: in every fallback loop, candidates are attempted strictly in list
order; the loop returns the first candidate that succeeds and stops, so
no later candidate is ever attempted. In particular, on `[s1, s2, s3]`
where `s1` fails and `s2` succeeds, the loop reports `s2` and the
attempted candidates are exactly `[s1, s2]` — `s3`'s position is never
reached. -/
theorem selector_fallback_first_success (works : String → Bool)
    (l : List String) :
    tryCandidates works l = l.find? works
    ∧ attemptedCandidates works l
        = l.takeWhile (fun s => !works s) ++ (l.find? works).toList
    ∧ ∀ s1 s2 s3 : String, works s1 = false → works s2 = true →
        tryCandidates works [s1, s2, s3] = some s2
        ∧ attemptedCandidates works [s1, s2, s3] = [s1, s2] := by
  refine ⟨tryCandidates_eq_find works l, attemptedCandidates_eq works l, ?_⟩
  intro s1 s2 s3 h1 h2
  constructor
  · simp [tryCandidates, h1, h2]
  · simp [attemptedCandidates, h1, h2]

/-- Witness for C1 at the concrete list `["s1", "s2", "s3"]` with a
predicate accepting only `"s2"`. -/
theorem selector_fallback_first_success_witness :
    tryCandidates (fun s => s == "s2") ["s1", "s2", "s3"] = some "s2"
    ∧ attemptedCandidates (fun s => s == "s2") ["s1", "s2", "s3"]
        = ["s1", "s2"] :=
  (selector_fallback_first_success (fun s => s == "s2")
    ["s1", "s2", "s3"]).2.2 "s1" "s2" "s3" (by decide) (by decide)

/-- C2 counterexample: when every email-field candidate of
`EkyteSimpleTest.run` fails, the thrown error is the fixed string
`'Campo de email não encontrado'`, which does not contain the first
attempted selector (nor any other): the error does not list the
attempted selectors. -/
theorem email_not_found_error_counterexample :
    emailStepOutcome (fun _ => false) emailSelectors
      = .err .elementNotFound "Campo de email não encontrado"
    ∧ containsSubstr "Campo de email não encontrado"
        "input[type=\"email\"]" = false := by
  exact ⟨rfl, by decide⟩

/-- C2 amended: when every candidate fails, the action fails with an
element-not-found classification whose error message is the fixed text
`'Campo de email não encontrado'`; the attempted selectors are logged
individually during the loop but are not part of the error. -/
theorem email_not_found_fixed_message (works : String → Bool)
    (selectors : List String) (h : ∀ s ∈ selectors, works s = false) :
    emailStepOutcome works selectors
      = .err .elementNotFound "Campo de email não encontrado" := by
  simp [emailStepOutcome, tryCandidates_eq_none works selectors h]

/-- Witness for the amended C2 on the concrete email-selector list with
an always-failing interaction. -/
theorem email_not_found_fixed_message_witness :
    emailStepOutcome (fun _ => false) emailSelectors
      = .err .elementNotFound "Campo de email não encontrado" :=
  email_not_found_fixed_message (fun _ => false) emailSelectors
    (by intro s _; rfl)

/-- C3: on a session whose browser is connected and whose page is open,
`ensureBrowser` changes nothing but the last-activity timestamp and
emits no engine event; consequently two consecutive `handleNavigate`
calls (valid URLs, no intervening teardown) keep the original page
handle and launch no browser on either call. -/
theorem ensureBrowser_idempotent (st : BrowserState)
    (hb : browserIsLive st = true) (hp : pageIsOpen st = true) :
    (∀ env : EnsureEnv,
      ensureBrowser env st
        = ({ st with lastActivity := env.now }, [.ensureInvoked]))
    ∧ ∀ (nav1 nav2 : NavigateEnv) (u1 u2 : String),
        nav1.urlValid u1 = true → nav2.urlValid u2 = true →
        (handleNavigate nav1 st u1).1.page = st.page
        ∧ (handleNavigate nav2 (handleNavigate nav1 st u1).1 u2).1.page
            = st.page
        ∧ BrowserEvent.launch ∉ (handleNavigate nav1 st u1).2.1
        ∧ BrowserEvent.launch
            ∉ (handleNavigate nav2 (handleNavigate nav1 st u1).1 u2).2.1 := by
  refine ⟨fun env => ensureBrowser_live env st hb hp, ?_⟩
  intro nav1 nav2 u1 u2 hv1 hv2
  obtain ⟨hst1, hev1⟩ := handleNavigate_live nav1 st u1 hv1 hb hp
  have hb1 : browserIsLive (handleNavigate nav1 st u1).1 = true := by
    rw [hst1]; exact hb
  have hp1 : pageIsOpen (handleNavigate nav1 st u1).1 = true := by
    rw [hst1]; exact hp
  obtain ⟨hst2, hev2⟩ :=
    handleNavigate_live nav2 ((handleNavigate nav1 st u1).1) u2 hv2 hb1 hp1
  refine ⟨by rw [hst1], ?_, by rw [hev1]; simp, by rw [hev2]; simp⟩
  rw [hst2, hst1]

/-- Witness for C3 on a concrete live session and two concrete navigate
environments. -/
theorem ensureBrowser_idempotent_witness :
    ensureBrowser ⟨100, 5, [], 9⟩ ⟨some ⟨1, true⟩, some ⟨2, false⟩, 0⟩
      = (⟨some ⟨1, true⟩, some ⟨2, false⟩, 100⟩, [.ensureInvoked])
    ∧ (handleNavigate ⟨fun _ => true, ⟨100, 5, [], 9⟩, .success "u"⟩
          ⟨some ⟨1, true⟩, some ⟨2, false⟩, 0⟩ "https://a").1.page
        = some ⟨2, false⟩ := by
  have h := ensureBrowser_idempotent ⟨some ⟨1, true⟩, some ⟨2, false⟩, 0⟩
    (by decide) (by decide)
  exact ⟨h.1 ⟨100, 5, [], 9⟩,
    (h.2 ⟨fun _ => true, ⟨100, 5, [], 9⟩, .success "u"⟩
      ⟨fun _ => true, ⟨100, 5, [], 9⟩, .success "u"⟩
      "https://a" "https://a" rfl rfl).1⟩

/-- C4: the reaper checks once per minute (`setInterval` period 60000);
at a tick where a browser handle is held and the time since the last
activity exceeds the 30-minute threshold, it closes the browser and
clears both handles, so the next `ensureBrowser` call observes a
non-live session and launches a fresh browser process. -/
theorem reaper_idle_teardown (now : Nat) (st : BrowserState)
    (hb : st.browser.isSome = true)
    (hidle : now - st.lastActivity > BROWSER_TIMEOUT) :
    CLEANUP_INTERVAL = 60000
    ∧ BROWSER_TIMEOUT = 30 * 60 * 1000
    ∧ cleanupTick now st
        = ({ st with browser := none, page := none }, [.closeBrowser])
    ∧ browserIsLive (cleanupTick now st).1 = false
    ∧ ∀ env : EnsureEnv,
        (ensureBrowser env (cleanupTick now st).1).1.browser
          = some ⟨env.freshBrowserId, true⟩
        ∧ BrowserEvent.launch ∈ (ensureBrowser env (cleanupTick now st).1).2 := by
  obtain ⟨b, hbb⟩ := Option.isSome_iff_exists.mp hb
  have htick : cleanupTick now st
      = ({ st with browser := none, page := none }, [.closeBrowser]) := by
    simp [cleanupTick, hbb, hidle]
  refine ⟨rfl, rfl, htick, by rw [htick]; rfl, ?_⟩
  intro env
  rw [htick]
  have hlive : browserIsLive { st with browser := none, page := none }
      = false := rfl
  have hopen : pageIsOpen { st with browser := none, page := none }
      = false := rfl
  constructor
  · unfold ensureBrowser
    simp only [hlive, Bool.false_eq_true, if_false]
    cases env.existingPages <;> simp [pageIsOpen]
  · unfold ensureBrowser
    simp only [hlive, Bool.false_eq_true, if_false]
    cases env.existingPages <;> simp [pageIsOpen]

/-- Witness for C4: an idle session held for `BROWSER_TIMEOUT + 1` ms is
torn down and the next `ensureBrowser` relaunches. -/
theorem reaper_idle_teardown_witness :
    cleanupTick (BROWSER_TIMEOUT + 1) ⟨some ⟨1, true⟩, some ⟨2, false⟩, 0⟩
      = (⟨none, none, 0⟩, [.closeBrowser])
    ∧ (ensureBrowser ⟨7, 5, [], 9⟩
        (cleanupTick (BROWSER_TIMEOUT + 1)
          ⟨some ⟨1, true⟩, some ⟨2, false⟩, 0⟩).1).1.browser
        = some ⟨5, true⟩ := by
  have h := reaper_idle_teardown (BROWSER_TIMEOUT + 1)
    ⟨some ⟨1, true⟩, some ⟨2, false⟩, 0⟩ (by decide) (by decide)
  exact ⟨h.2.2.1, (h.2.2.2.2 ⟨7, 5, [], 9⟩).1⟩

/-- C5: a `navigate` call whose URL fails the schema's URL check returns
a validation error with the browser state untouched and an empty event
trace — in particular `ensureBrowser` (which always records
`ensureInvoked` in the trace) was never invoked, so no browser is
launched and no page is touched. -/
theorem navigate_invalid_url_no_side_effect (env : NavigateEnv)
    (st : BrowserState) (url : String) (h : env.urlValid url = false) :
    handleNavigate env st url
      = (st, [], .err .validationError "URL inválida fornecida")
    ∧ ∀ (e : EnsureEnv) (s : BrowserState),
        BrowserEvent.ensureInvoked ∈ (ensureBrowser e s).2 := by
  refine ⟨?_, ensureBrowser_invoked⟩
  simp [handleNavigate, h]

/-- Witness for C5 with a rejecting validator on a fresh state. -/
theorem navigate_invalid_url_no_side_effect_witness :
    handleNavigate ⟨fun _ => false, ⟨0, 0, [], 0⟩, .success "u"⟩
        ⟨none, none, 0⟩ "not a url"
      = (⟨none, none, 0⟩, [], .err .validationError "URL inválida fornecida") :=
  (navigate_invalid_url_no_side_effect
    ⟨fun _ => false, ⟨0, 0, [], 0⟩, .success "u"⟩ ⟨none, none, 0⟩
    "not a url" rfl).1

/-- C6 counterexample: `handleNavigate` returns
`successResponse({ url: validated.url }, …)` — the requested URL, not
the page's final URL. At a call where the load completes with the page
redirected to `https://app.ekyte.com/#/login`, the payload still holds
the requested `https://app.ekyte.com`, which differs from the final
URL. -/
theorem navigate_payload_counterexample :
    (handleNavigate
        ⟨fun _ => true, ⟨0, 0, [], 0⟩,
          GotoResult.success "https://app.ekyte.com/#/login"⟩
        ⟨some ⟨0, true⟩, some ⟨0, false⟩, 0⟩ "https://app.ekyte.com").2.2
      = ToolOutcome.ok ⟨"https://app.ekyte.com"⟩
    ∧ ("https://app.ekyte.com" : String) ≠ "https://app.ekyte.com/#/login" :=
  ⟨rfl, by decide⟩

/-- C6 amended: for a valid URL, if the page load completes the call
succeeds and its payload holds the requested (validated) URL — which is
the final URL only when navigation does not redirect; if navigation
throws, the call fails classified as `PageLoadFailed` with the thrown
message wrapped. -/
theorem navigate_outcome (env : NavigateEnv) (st : BrowserState)
    (url : String) (hv : env.urlValid url = true) :
    (∀ f, env.goto = .success f →
      (handleNavigate env st url).2.2 = .ok ⟨url⟩)
    ∧ ∀ m, env.goto = .failure m →
      (handleNavigate env st url).2.2
        = .err .pageLoadFailed ("Falha ao navegar para " ++ url ++ ": " ++ m) := by
  obtain ⟨p, hpg⟩ := Option.isSome_iff_exists.mp
    (ensureBrowser_page_isSome env.ensure st)
  constructor
  · intro f hf
    simp [handleNavigate, hv, hpg, hf]
  · intro m hm
    simp [handleNavigate, hv, hpg, hm]

/-- Witness for the amended C6: a completing load yields the requested
URL, a throwing one the classified failure. -/
theorem navigate_outcome_witness :
    (handleNavigate ⟨fun _ => true, ⟨0, 0, [], 0⟩, .success "https://a"⟩
        ⟨none, none, 0⟩ "https://a").2.2 = .ok ⟨"https://a"⟩
    ∧ (handleNavigate ⟨fun _ => true, ⟨0, 0, [], 0⟩, .failure "timeout"⟩
        ⟨none, none, 0⟩ "https://a").2.2
      = .err .pageLoadFailed "Falha ao navegar para https://a: timeout" := by
  constructor
  · exact (navigate_outcome ⟨fun _ => true, ⟨0, 0, [], 0⟩, .success "https://a"⟩
      ⟨none, none, 0⟩ "https://a" rfl).1 "https://a" rfl
  · have h := (navigate_outcome ⟨fun _ => true, ⟨0, 0, [], 0⟩, .failure "timeout"⟩
      ⟨none, none, 0⟩ "https://a" rfl).2 "timeout" rfl
    rw [h]
    rfl

/-- C7: for a non-empty screenshot path, the stored and returned file
path is the given path with `.png` appended exactly once when the path
does not already end in `.png`/`.jpg`/`.jpeg` (case-insensitively), and
is the given path unchanged when it does. -/
theorem screenshot_path_extension (env : ScreenshotEnv) (st : BrowserState)
    (p : String) (fp : Bool) (hne : ¬ p = "") :
    (hasImageExt p = false →
      (handleScreenshot env st p fp).2.2
        = .ok ⟨p ++ ".png", env.currentUrl, env.title⟩)
    ∧ (hasImageExt p = true →
      (handleScreenshot env st p fp).2.2
        = .ok ⟨p, env.currentUrl, env.title⟩) := by
  obtain ⟨q, hpg⟩ := Option.isSome_iff_exists.mp
    (ensureBrowser_page_isSome env.ensure st)
  constructor
  · intro hext
    simp [handleScreenshot, hne, hpg, resolveScreenshotPath, hext]
  · intro hext
    simp [handleScreenshot, hne, hpg, resolveScreenshotPath, hext]

/-- Witness for C7: `shot` gains `.png`; `shot.JPEG` is unchanged. -/
theorem screenshot_path_extension_witness :
    (handleScreenshot ⟨⟨0, 0, [], 0⟩, "u", "t"⟩ ⟨none, none, 0⟩
        "shot" false).2.2 = .ok ⟨"shot.png", "u", "t"⟩
    ∧ (handleScreenshot ⟨⟨0, 0, [], 0⟩, "u", "t"⟩ ⟨none, none, 0⟩
        "shot.JPEG" false).2.2 = .ok ⟨"shot.JPEG", "u", "t"⟩ := by
  constructor
  · exact (screenshot_path_extension ⟨⟨0, 0, [], 0⟩, "u", "t"⟩ ⟨none, none, 0⟩
      "shot" false (by decide)).1 (by decide)
  · exact (screenshot_path_extension ⟨⟨0, 0, [], 0⟩, "u", "t"⟩ ⟨none, none, 0⟩
      "shot.JPEG" false (by decide)).2 (by decide)

/-- C8: the transport settles the pending request only on a frame whose
identifier equals the request's identifier — a matching frame rejects
with the frame's error message or resolves with its result — and every
frame with a different identifier is discarded without affecting the
pending request; a run of mismatched frames leaves the request
pending. -/
theorem transport_id_matching (reqId : Nat) :
    (∀ (st : ReqState) (f : Frame), ¬ f.id = reqId →
      processFrame reqId st f = st)
    ∧ (∀ f : Frame, ¬ processFrame reqId .pending f = .pending →
        f.id = reqId)
    ∧ (∀ f : Frame, f.id = reqId →
        processFrame reqId .pending f
          = match f.error with
            | some m => .rejected m
            | none => .resolved f.result)
    ∧ ∀ fs : List Frame, (∀ f ∈ fs, ¬ f.id = reqId) →
        processFrames reqId .pending fs = .pending := by
  have hskip : ∀ (st : ReqState) (f : Frame), ¬ f.id = reqId →
      processFrame reqId st f = st := by
    intro st f hf
    cases st <;> simp [processFrame, hf]
  refine ⟨hskip, ?_, ?_, ?_⟩
  · intro f hne
    by_contra hid
    exact hne (hskip .pending f hid)
  · intro f hf
    simp [processFrame, hf]
  · intro fs hall
    induction fs with
    | nil => rfl
    | cons f rest ih =>
      have h1 : processFrame reqId .pending f = .pending :=
        hskip .pending f (hall f (by simp))
      simp only [processFrames, List.foldl_cons, h1]
      exact ih fun g hg => hall g (by simp [hg])

/-- Witness for C8: a mismatched frame leaves the request pending, a
matching result frame resolves it. -/
theorem transport_id_matching_witness :
    processFrame 7 .pending ⟨3, none, "x"⟩ = .pending
    ∧ processFrame 7 .pending ⟨7, none, "y"⟩ = .resolved "y" := by
  have h := transport_id_matching 7
  exact ⟨h.1 .pending ⟨3, none, "x"⟩ (by decide),
    h.2.2.1 ⟨7, none, "y"⟩ rfl⟩

/-- C9: a tool name outside the `toolHandlers` catalogue is rejected by
the dispatcher with a classified error; the session state is returned
untouched and no engine event occurs, so no handler ran and no page
interaction took place. -/
theorem unknown_tool_rejected
    (run : String → BrowserState → BrowserState × List BrowserEvent × ToolOutcome String)
    (name : String) (st : BrowserState)
    (h : toolNames.contains name = false) :
    dispatch run name st
      = (st, [], .err .unknownTool ("Ferramenta desconhecida: " ++ name)) := by
  simp only [dispatch, h, Bool.false_eq_true, if_false]

/-- Witness for C9 at a name absent from the catalogue. -/
theorem unknown_tool_rejected_witness :
    dispatch (fun _ st => (st, [], .ok "ran")) "no_such_tool" ⟨none, none, 0⟩
      = (⟨none, none, 0⟩, [],
         .err .unknownTool "Ferramenta desconhecida: no_such_tool") := by
  have h := unknown_tool_rejected (fun _ st => (st, [], .ok "ran"))
    "no_such_tool" ⟨none, none, 0⟩ (by decide)
  rw [h]
  rfl

/-- C10: when none of the five hard-coded search-field selectors works
within its per-candidate timeout, `handleEkyteSmartSearch` does not fail
with an element-not-found error: it scans the page body text, takes a
full-page screenshot, and returns a success whose method is `manual` and
whose results are at most 5 text fragments, each the trimmed form of a
sentence of the lowercased body text containing the lowercased term. -/
theorem smart_search_manual_fallback (env : SmartSearchEnv)
    (term path : String)
    (h : ∀ s ∈ searchSelectors, env.selectorWorks s = false) :
    handleEkyteSmartSearch env term path
      = (.ok ⟨term, "manual", manualSearchResults env.bodyText term, path⟩,
         [.screenshot path true])
    ∧ (manualSearchResults env.bodyText term).length ≤ 5
    ∧ ∀ r ∈ manualSearchResults env.bodyText term, ∃ sentence,
        sentence ∈ sentenceSplit (lowerString env.bodyText)
        ∧ containsSubstr sentence (lowerString term) = true
        ∧ r = trimString sentence := by
  refine ⟨?_, ?_, ?_⟩
  · simp [handleEkyteSmartSearch,
      tryCandidates_eq_none env.selectorWorks searchSelectors h]
  · simp only [manualSearchResults, List.length_map]
    exact le_trans (List.length_take_le 5 _) (le_refl 5)
  · intro r hr
    simp only [manualSearchResults, List.mem_map] at hr
    obtain ⟨m, hm, hrm⟩ := hr
    have hmem := List.mem_of_mem_take hm
    rw [List.mem_filter] at hmem
    exact ⟨m, hmem.1, hmem.2, hrm.symm⟩

/-- Witness for C10 with no working search field over a two-sentence
body text. -/
theorem smart_search_manual_fallback_witness :
    handleEkyteSmartSearch ⟨fun _ => false, "alpha beta. gamma."⟩ "beta" "s"
      = (.ok ⟨"beta", "manual", ["alpha beta"], "s"⟩, [.screenshot "s" true]) := by
  have h := smart_search_manual_fallback ⟨fun _ => false, "alpha beta. gamma."⟩
    "beta" "s" (by intro s _; rfl)
  rw [h.1]
  rfl

end BiancaTools
